import Mathlib

/-!
Verification of the CityUnmasked spatial-statistical analysis pipeline.

Shallow embedding of the core analysis functions of the repository:
  * the severity tiering engine (`_assign_tier` in src/analysis/code_violations.py,
    identical to `_assign_violation_tier` in src/crime_unfit_analysis.py),
  * the spatial-join engine (`run_spatial_joins`, `add_violation_features`),
  * the neighborhood classifier (`classify_neighborhoods`, `norm`, risk score),
  * the Granger causality drivers (`run_granger_causality`,
    `run_granger_causality_cv`).

Numeric columns are embedded as rational numbers; the haversine BallTree
proximity predicate, the augmented Dickey-Fuller test and the
`grangercausalitytests` routine are numerical library calls and enter the
embedding as explicit function parameters (oracles), so that the control
flow of the repository's own code around them is captured exactly.
-/

namespace CityUnmasked

/-! ### Severity tiering engine

Keyword configuration, transcribed from src/analysis/code_violations.py
lines 18-38 (the module-level copies in src/crime_unfit_analysis.py lines
1025-1049 are identical). -/

def TIER_1_KEYWORDS : List String := [
  "107.1.3", "unfit for human", "structural members",
  "304.10", "stairways", "305.4", "stairs and walking",
  "304.2", "protective treatment", "27-32 (b)", "stairs, porches"
]

def TIER_2_KEYWORDS : List String := [
  "305.3", "interior surfaces", "504.1", "plumbing",
  "304.13", "window", "skylight", "605.1", "installation",
  "603.1", "mechanical", "appliances", "309.1", "infestation",
  "705.1", "carbon monoxide", "304.15", "doors", "305.6",
  "interior doors", "lead abatement", "27-57", "receptacle",
  "27-32 (d)", "protective coating", "27-31", "structural"
]

def TIER_3_KEYWORDS : List String := [
  "27-72", "overgrowth", "trash", "debris",
  "308.1", "rubbish", "garbage", "27-116", "vacant property registry"
]

def EXCLUDE_KEYWORDS : List String := [
  "27-133 registration", "27-43", "certification",
  "105.2", "building permit"
]

/-- Python `needle` matching `haystack` at its head: the needle's characters
are an initial segment of the haystack's characters. -/
def kwAt : List Char → List Char → Bool
  | [], _ => true
  | _ :: _, [] => false
  | a :: as, b :: bs => a == b && kwAt as bs

/-- Python substring containment `kw in v`, over character lists: the
needle matches at the head of some suffix of the haystack. -/
def kwIn (kw : List Char) : List Char → Bool
  | [] => kwAt kw []
  | b :: bs => kwAt kw (b :: bs) || kwIn kw bs

/-- Python `s.lower()`, as the character list of the lowercased string. -/
def lowerChars (s : String) : List Char := s.data.map Char.toLower

/-- The exclusion loop of `_assign_tier`: `for kw in EXCLUDE_KEYWORDS: if kw
in v: return 0` (the source matches these keywords verbatim against the
lowercased text). -/
def exclHit (s : String) : Bool :=
  EXCLUDE_KEYWORDS.any fun kw => kwIn kw.data (lowerChars s)

/-- The Tier-1 loop of `_assign_tier`: `for kw in TIER_1_KEYWORDS: if
kw.lower() in v: return 3`. -/
def tier1Hit (s : String) : Bool :=
  TIER_1_KEYWORDS.any fun kw => kwIn (lowerChars kw) (lowerChars s)

/-- The Tier-2 loop of `_assign_tier`. -/
def tier2Hit (s : String) : Bool :=
  TIER_2_KEYWORDS.any fun kw => kwIn (lowerChars kw) (lowerChars s)

/-- The Tier-3 loop of `_assign_tier`. -/
def tier3Hit (s : String) : Bool :=
  TIER_3_KEYWORDS.any fun kw => kwIn (lowerChars kw) (lowerChars s)

/-- `_assign_tier` (src/analysis/code_violations.py lines 53-69; the copy
`_assign_violation_tier` in src/crime_unfit_analysis.py lines 1052-1075 is
line-for-line identical): missing text (`pd.isna`) gives 1, then the four
keyword loops run in order, first match winning, and the fall-through
default is 1. -/
def assign_tier : Option String → Nat
  | none => 1
  | some s =>
    if exclHit s then 0
    else if tier1Hit s then 3
    else if tier2Hit s then 2
    else if tier3Hit s then 1
    else 1

/-! ### Spatial join engine

The BallTree geometry (haversine great-circle distance at a 100m radius)
is a numerical library computation; it enters the embedding as an explicit
proximity predicate `near`, so that the control flow of the repository
code around the tree — index construction, the empty-reference guard, the
flag and aggregate derivations — is captured exactly. -/

/-- A geocoordinate pair (`LAT`/`LON`, `lat`/`lon` columns). -/
structure Point where
  lat : ℚ
  lon : ℚ
deriving DecidableEq, Repr

/-- sklearn `BallTree(coords, metric='haversine')`: `check_array` inside the
constructor requires at least one sample, so building the index on an empty
reference set raises a ValueError. The index itself is modelled as the
reference list; radius queries against it are evaluated by the `near`
predicate. -/
def buildBallTree {α : Type} (refs : List α) : Option (List α) :=
  if refs.isEmpty then none else some refs

/-- `tree.query_radius(c_coords, r=100/6_371_000, count_only=True)` for one
query point: how many reference points lie within the radius. -/
def query_radius_count {α : Type} (near : Point → α → Bool) (tree : List α)
    (c : Point) : Nat :=
  (tree.filter fun p => near c p).length

/-- The `decay_zone` column of `run_spatial_joins` (src/analysis/decay_index.py
lines 55-58, identically src/crime_unfit_analysis.py lines 64-67): the column
starts as `'Neither'` and three disjoint `.loc` masks overwrite it. -/
inductive DecayZone
  | Neither
  | NearUnfitOnly
  | NearVacantOnly
  | NearBoth
deriving DecidableEq, Repr

/-- The sequential `.loc` case analysis producing `decay_zone` from the two
proximity flags. -/
def decayZoneOf (u v : Bool) : DecayZone :=
  if u && !v then .NearUnfitOnly
  else if !u && v then .NearVacantOnly
  else if u && v then .NearBoth
  else .Neither

/-- One crime row after `run_spatial_joins`. -/
structure CrimeFlags where
  pt : Point
  near_unfit : Bool
  near_vacant : Bool
  near_decay : Bool
  decay_zone : DecayZone
deriving DecidableEq, Repr

/-- `run_spatial_joins` (src/analysis/decay_index.py lines 31-60; the same
computation appears inline in `load_data`, src/crime_unfit_analysis.py lines
47-67): a BallTree is built on each reference set unconditionally — there is
no empty-set guard here, so an empty unfit or vacant set makes the sklearn
constructor raise (`none`). Each crime gets `near_unfit` / `near_vacant`
from 100m-radius counts, then `near_decay = near_unfit | near_vacant` and
the `decay_zone` label. -/
def run_spatial_joins (near : Point → Point → Bool) (crime unfit vacant : List Point) :
    Option (List CrimeFlags) :=
  match buildBallTree unfit, buildBallTree vacant with
  | some tree_unfit, some tree_vacant =>
    some (crime.map fun c =>
      let nu := decide (0 < query_radius_count near tree_unfit c)
      let nv := decide (0 < query_radius_count near tree_vacant c)
      { pt := c, near_unfit := nu, near_vacant := nv,
        near_decay := nu || nv, decay_zone := decayZoneOf nu nv })
  | _, _ => none

/-! ### Code violation loading and per-crime violation features -/

/-- The seven complaint types kept by the loader
(src/analysis/code_violations.py lines 8-16). -/
def KEEP_COMPLAINT_TYPES : List String := [
  "Property Maintenance-Int",
  "Property Maintenance-Ext",
  "Vacant House",
  "Overgrowth: Private, Occ",
  "Trash/Debris-Private, Occ",
  "Fire Safety",
  "Vacant Lot"
]

/-- An input row of code_violations.csv, restricted to the columns the
loader logic reads: complaint type, free-text violation description
(possibly missing), coordinates (possibly missing) and status. -/
structure RawViolation where
  complaint_type_name : String
  violation : Option String
  latlon : Option Point
  status_type_name : String
deriving DecidableEq, Repr

/-- A cleaned violation record produced by the loader. -/
structure Violation where
  pt : Point
  tier : Nat
  is_open : Bool
deriving DecidableEq, Repr

/-- The record-filtering core of `load_code_violations`
(src/analysis/code_violations.py lines 86-99; identically
src/crime_unfit_analysis.py lines 1097-1122): keep the physical-decay
complaint types, assign tiers with `_assign_tier`, drop tier-0
(administrative) rows, drop rows with missing coordinates, and derive
`is_open` from the status column. CSV parsing and the date columns are
outside the embedding; rows enter as already-parsed records. -/
def load_code_violations (rows : List RawViolation) : List Violation :=
  let kept := rows.filter fun r => KEEP_COMPLAINT_TYPES.contains r.complaint_type_name
  let tiered := kept.map fun r => (r, assign_tier r.violation)
  let nonzero := tiered.filter fun rt => decide (0 < rt.2)
  nonzero.filterMap fun rt =>
    rt.1.latlon.map fun p =>
      { pt := p, tier := rt.2, is_open := rt.1.status_type_name == "Open" }

/-- One crime row after `add_violation_features`. -/
structure CrimeViol where
  pt : Point
  violation_count : Nat
  violation_severity_score : Nat
  has_critical_violation : Bool
deriving DecidableEq, Repr

/-- `add_violation_features` (src/analysis/code_violations.py lines 115-145;
`add_violation_features_to_crimes` in src/crime_unfit_analysis.py lines
1166-1203 is identical): the `len(cv) == 0` guard returns zero counts, zero
severity scores and False flags without building the BallTree; otherwise
the tree is built on the violation coordinates and each crime aggregates
the violations within 100m — their number, the sum of their tier values,
and whether any has tier 3. -/
def add_violation_features (near : Point → Point → Bool) (crimes : List Point)
    (cv : List Violation) : Option (List CrimeViol) :=
  if cv.isEmpty then
    some (crimes.map fun c =>
      { pt := c, violation_count := 0, violation_severity_score := 0,
        has_critical_violation := false })
  else
    (buildBallTree cv).map fun tree =>
      crimes.map fun c =>
        let matched := tree.filter fun v => near c v.pt
        { pt := c,
          violation_count := matched.length,
          violation_severity_score := (matched.map (·.tier)).sum,
          has_critical_violation := matched.any (·.tier == 3) }

/-! ### Neighborhood (zone) classifier -/

/-- The four zone labels returned by `classify`. `TypeA` stands for
`'Type A — Crime-Blight Feedback'`, `TypeB` for
`'Type B — Economic Abandonment'`, `TypeC` for
`'Type C — Infrastructure Decay'` and `LowRisk` for
`'Low Risk / Monitoring'`. -/
inductive ZoneType
  | TypeA
  | TypeB
  | TypeC
  | LowRisk
deriving DecidableEq, Repr

/-- One ZIP row of the merged `nbr` table, at the point where `classify`
and `norm` read it: crime count, decay score, unfit ratio and unresolved
rate (all numeric columns, embedded as rationals). -/
structure ZipRow where
  crime_count : ℚ
  decay_score : ℚ
  unfit_ratio : ℚ
  pct_unresolved : ℚ
deriving DecidableEq, Repr

/-- The inner `classify(row)` of `classify_neighborhoods` in
src/analysis/decay_index.py lines 130-137: strict comparisons against the
medians, priority order Type A, Type B, Type C, Low Risk. -/
def classify (crime_median decay_median : ℚ) (row : ZipRow) : ZoneType :=
  if row.crime_count > crime_median ∧ row.decay_score > decay_median then .TypeA
  else if row.decay_score > decay_median then .TypeB
  else if row.unfit_ratio > 0.4 then .TypeC
  else .LowRisk

/-- The inner `classify(row)` of the `classify_neighborhoods` variant in
src/crime_unfit_analysis.py lines 884-895: unlike the decay_index.py
variant, its Type B and Type C branches additionally require
`not high_crime`. -/
def classify_cu (crime_median decay_median : ℚ) (row : ZipRow) : ZoneType :=
  if row.crime_count > crime_median ∧ row.decay_score > decay_median then .TypeA
  else if row.decay_score > decay_median ∧ ¬ row.crime_count > crime_median then .TypeB
  else if row.unfit_ratio > 0.4 ∧ ¬ row.crime_count > crime_median then .TypeC
  else .LowRisk

/-- `Series.min` of a numeric column (0 for the empty series, which pandas
maps to NaN; the empty case is irrelevant to the claims). -/
def listMin : List ℚ → ℚ
  | [] => 0
  | [x] => x
  | x :: y :: xs => min x (listMin (y :: xs))

/-- `Series.max` of a numeric column. -/
def listMax : List ℚ → ℚ
  | [] => 0
  | [x] => x
  | x :: y :: xs => max x (listMax (y :: xs))

/-- The inner `norm(s)` of `classify_neighborhoods`
(src/analysis/decay_index.py lines 141-143, identically
src/crime_unfit_analysis.py lines 899-901):
`rng = s.max() - s.min(); return (s - s.min()) / rng if rng > 0 else s * 0`. -/
def norm (s : List ℚ) : List ℚ :=
  let m := listMin s
  let rng := listMax s - m
  if 0 < rng then s.map fun x => (x - m) / rng
  else s.map fun x => x * 0

/-- Insertion step of the sort underlying `Series.median`. -/
def insertAsc (x : ℚ) : List ℚ → List ℚ
  | [] => [x]
  | y :: ys => if x ≤ y then x :: y :: ys else y :: insertAsc x ys

/-- Ascending sort of a numeric column. -/
def sortAsc : List ℚ → List ℚ
  | [] => []
  | x :: xs => insertAsc x (sortAsc xs)

/-- `Series.median`: the middle element of the sorted values for an odd
count, the mean of the two middle elements for an even count (the empty
series, NaN in pandas, is mapped to 0; it never occurs in the claims). -/
def median (s : List ℚ) : ℚ :=
  let t := sortAsc s
  let n := t.length
  if n = 0 then 0
  else if n % 2 = 1 then t.getD (n / 2) 0
  else (t.getD (n / 2 - 1) 0 + t.getD (n / 2) 0) / 2

/-- Pointwise combination of three equal-length columns (the risk-score
arithmetic acts row-wise on the three normalized columns). -/
def zipWith3 (f : ℚ → ℚ → ℚ → ℚ) : List ℚ → List ℚ → List ℚ → List ℚ
  | a :: as, b :: bs, c :: cs => f a b c :: zipWith3 f as bs cs
  | _, _, _ => []

/-- One output row of `classify_neighborhoods`. -/
structure ZipOut where
  row : ZipRow
  zone_type : ZoneType
  risk_score : ℚ
deriving DecidableEq, Repr

/-- The table computation of `classify_neighborhoods`
(src/analysis/decay_index.py lines 127-149, identically
src/crime_unfit_analysis.py lines 879-907 up to its stricter `classify`):
medians of the crime and decay columns, zone classification per row, and
`risk_score = (norm(crime_count)*0.40 + norm(decay_score)*0.35 +
norm(pct_unresolved)*0.25) * 100`. The final
`sort_values('risk_score', ascending=False)` (lines 151 / 909) permutes
these rows by descending risk score using the pandas default
`kind='quicksort'` and is outside this definition. -/
def classify_rows (rows : List ZipRow) : List ZipOut :=
  let cm := median (rows.map (·.crime_count))
  let dm := median (rows.map (·.decay_score))
  let nc := norm (rows.map (·.crime_count))
  let nd := norm (rows.map (·.decay_score))
  let nr := norm (rows.map (·.pct_unresolved))
  let risks := zipWith3 (fun a b c => (a * 0.40 + b * 0.35 + c * 0.25) * 100) nc nd nr
  (rows.zip risks).map fun rk =>
    { row := rk.1, zone_type := classify cm dm rk.1, risk_score := rk.2 }

/-! ### Granger causality drivers

The two numerical statsmodels routines are oracles: `adf` stands for
`adfuller(series, autolag='AIC')[1]` (the unit-root p-value) and `granger`
stands for `grangercausalitytests(data, maxlag=m, verbose=False)`, which
computes all lags `1..m` in one call and raises (`Except.error`) if any of
them fails numerically — the per-lag p-values of a successful call are the
returned function. -/

/-- `pd.merge(monthly_a, monthly_b, on='period', how='inner')` followed by
`.sort_values('period')`, for monthly count series with unique periods (both
operands come out of `groupby('period').size()`): the periods present in
both series, in increasing period order, with both counts. The `.dropna()`
after the merge is a no-op on an inner join of complete series. -/
def lookupPeriod (b : List (Nat × ℚ)) (p : Nat) : Option ℚ :=
  (b.find? fun q => q.1 == p).map (·.2)

/-- Insertion step of the period sort. -/
def insertByPeriod (x : Nat × ℚ × ℚ) : List (Nat × ℚ × ℚ) → List (Nat × ℚ × ℚ)
  | [] => [x]
  | y :: ys => if x.1 ≤ y.1 then x :: y :: ys else y :: insertByPeriod x ys

/-- Ascending sort of joined rows by period. -/
def sortByPeriod : List (Nat × ℚ × ℚ) → List (Nat × ℚ × ℚ)
  | [] => []
  | x :: xs => insertByPeriod x (sortByPeriod xs)

/-- The inner join itself; see the comment above `lookupPeriod`. -/
def innerJoin (a b : List (Nat × ℚ)) : List (Nat × ℚ × ℚ) :=
  sortByPeriod (a.filterMap fun pa => (lookupPeriod b pa.1).map fun v => (pa.1, pa.2, v))

/-- The differencing step: `col.diff()` writes NaN into the first row and
the following `dropna()` removes it, so with at least one differenced
column the frame loses its first row and each differenced column holds
successive differences; with no differenced column the frame is unchanged. -/
def diffRows (d1 d2 : Bool) (ts : List (Nat × ℚ × ℚ)) : List (Nat × ℚ × ℚ) :=
  if d1 || d2 then
    (ts.zip ts.tail).map fun pr =>
      (pr.2.1,
       if d1 then pr.2.2.1 - pr.1.2.1 else pr.2.2.1,
       if d2 then pr.2.2.2 - pr.1.2.2 else pr.2.2.2)
  else ts

/-- Python `round(p, 4)` on a p-value (the float banker-rounding tie case
is immaterial to the claims). -/
def round4 (q : ℚ) : ℚ := (round (q * 10000) : ℤ) / 10000

/-- One entry of `lag_results` in `run_granger_causality`
(src/crime_unfit_analysis.py lines 414-424). -/
structure LagRow where
  lag_months : Nat
  p_value_ftest : ℚ
  p_value_chi2 : ℚ
  significant : Bool
deriving DecidableEq, Repr

/-- `run_granger_causality` (src/crime_unfit_analysis.py lines 375-442),
from the point where the two monthly series exist: inner-join on period;
fewer than 10 overlapping months returns the structured tuple
`(None, ts, "Insufficient overlapping time periods for Granger test.")`
before any statistics run; otherwise ADF-test both series, difference the
non-stationary ones and drop the NaN row, set
`max_lag = min(4, len(ts) // 4)`, and run `grangercausalitytests` once —
an exception from it is caught and turned into the structured tuple
`(None, ts, "Granger test error: ...")`; on success the per-lag F-test and
chi-squared p-values are tabulated (rounded to 4 digits), significance is
`p < 0.05` on the unrounded F-test p-value, and the interpretation string
is chosen by whether any lag is significant. -/
def run_granger_causality (adf : List ℚ → ℚ)
    (granger : List (ℚ × ℚ) → Nat → Except String (Nat → ℚ × ℚ))
    (crimeMonthly unfitMonthly : List (Nat × ℚ)) :
    Option (List LagRow) × List (Nat × ℚ × ℚ) × String :=
  let ts := innerJoin crimeMonthly unfitMonthly
  if ts.length < 10 then
    (none, ts, "Insufficient overlapping time periods for Granger test.")
  else
    let d1 := decide (adf (ts.map (·.2.1)) > 0.05)
    let d2 := decide (adf (ts.map (·.2.2)) > 0.05)
    let ts2 := diffRows d1 d2 ts
    let max_lag := min 4 (ts2.length / 4)
    match granger (ts2.map fun r => (r.2.1, r.2.2)) max_lag with
    | .error e => (none, ts2, "Granger test error: " ++ e)
    | .ok pv =>
      let lag_results := (List.range max_lag).map fun i =>
        let lag := i + 1
        { lag_months := lag,
          p_value_ftest := round4 (pv lag).1,
          p_value_chi2 := round4 (pv lag).2,
          significant := decide ((pv lag).1 < 0.05) : LagRow }
      let significant_lags := (lag_results.filter (·.significant)).map (·.lag_months)
      let interpretation :=
        if significant_lags.isEmpty then
          "⚠️ No statistically significant Granger causality detected in this window. " ++
          "This may reflect the short overlapping time series. " ++
          "The spatial correlation remains strong, but directional causation requires longer data."
        else
          "✅ Granger causality detected at lag(s): " ++ toString significant_lags ++
          " month(s). Unfit property violations statistically predict future crime counts — " ++
          "supporting the problem statement that decay precedes crime."
      (some lag_results, ts2, interpretation)

/-- One entry of `lags1`/`lags2` in `run_granger_causality_cv`
(src/crime_unfit_analysis.py lines 488-516). -/
structure CvLagRow where
  lag_months : Nat
  p_value : ℚ
  significant : Bool
  direction : String
deriving DecidableEq, Repr

/-- The joined-and-differenced frame of `run_granger_causality_cv`
(`ts_diff`, src/crime_unfit_analysis.py lines 469-478). -/
def cvDiffed (adf : List ℚ → ℚ) (a b : List (Nat × ℚ)) : List (Nat × ℚ × ℚ) :=
  let ts := innerJoin a b
  diffRows (decide (adf (ts.map (·.2.1)) > 0.05)) (decide (adf (ts.map (·.2.2)) > 0.05)) ts

/-- `max_lag = min(6, len(ts_diff) // 5)` (line 480). -/
def cvMaxLag (adf : List ℚ → ℚ) (a b : List (Nat × ℚ)) : Nat :=
  min 6 ((cvDiffed adf a b).length / 5)

/-- The data array of the direction-1 call,
`ts_diff[['crime_count', 'violation_count']].values` (line 485). -/
def cvData1 (adf : List ℚ → ℚ) (a b : List (Nat × ℚ)) : List (ℚ × ℚ) :=
  (cvDiffed adf a b).map fun r => (r.2.1, r.2.2)

/-- The data array of the direction-2 call,
`ts_diff[['violation_count', 'crime_count']].values` (line 503). -/
def cvData2 (adf : List ℚ → ℚ) (a b : List (Nat × ℚ)) : List (ℚ × ℚ) :=
  (cvDiffed adf a b).map fun r => (r.2.2, r.2.1)

/-- The per-lag result rows one direction contributes on a successful
`grangercausalitytests` call (lines 488-496 resp. 506-514). -/
def mkCvLagRows (direction : String) (max_lag : Nat) (pv : Nat → ℚ) : List CvLagRow :=
  (List.range max_lag).map fun i =>
    let lag := i + 1
    { lag_months := lag,
      p_value := round4 (pv lag),
      significant := decide (pv lag < 0.05),
      direction := direction }

/-- `run_granger_causality_cv` (src/crime_unfit_analysis.py lines 444-550),
from the point where the two monthly series exist: inner-join on period;
fewer than 24 overlapping months returns the structured tuple
`(None, None, ts, "Insufficient overlapping time periods.")` before any
statistics run; otherwise each direction runs `grangercausalitytests` on
the differenced frame inside its own try/except — a failing direction
contributes the empty row list while the other direction is still computed
— and the function returns the concatenated rows, the per-direction
significant lags, the (undifferenced) joined frame, and an interpretation
chosen from which directions have a significant lag. -/
def run_granger_causality_cv (adf : List ℚ → ℚ)
    (granger : List (ℚ × ℚ) → Nat → Except String (Nat → ℚ))
    (crimeMonthly cvMonthly : List (Nat × ℚ)) :
    Option (List CvLagRow) × Option (List Nat × List Nat) × List (Nat × ℚ × ℚ) × String :=
  let ts := innerJoin crimeMonthly cvMonthly
  if ts.length < 24 then
    (none, none, ts, "Insufficient overlapping time periods.")
  else
    let max_lag := cvMaxLag adf crimeMonthly cvMonthly
    let lags1 := match granger (cvData1 adf crimeMonthly cvMonthly) max_lag with
      | .error _ => []
      | .ok pv => mkCvLagRows "Violations → Crime" max_lag pv
    let lags2 := match granger (cvData2 adf crimeMonthly cvMonthly) max_lag with
      | .error _ => []
      | .ok pv => mkCvLagRows "Crime → Violations" max_lag pv
    let results := lags1 ++ lags2
    let sig1 := (lags1.filter (·.significant)).map (·.lag_months)
    let sig2 := (lags2.filter (·.significant)).map (·.lag_months)
    let interpretation :=
      if !sig1.isEmpty && !sig2.isEmpty then
        "🔄 Bidirectional relationship detected. Violations predict crime at lag(s) " ++
        toString sig1 ++ " months AND crime predicts violations at lag(s) " ++
        toString sig2 ++ " months. This is consistent with a reinforcing feedback loop — " ++
        "each accelerates the other."
      else if !sig1.isEmpty then
        "✅ Violations → Crime causality detected at lag(s) " ++ toString sig1 ++
        " month(s). Physical decay statistically precedes crime increases. " ++
        "Crime → Violations direction was NOT significant — decay is the leading signal."
      else if !sig2.isEmpty then
        "⚠️ Crime → Violations causality detected at lag(s) " ++ toString sig2 ++
        " month(s). Crime increases appear to precede violation increases — possibly through " ++
        "resident flight and accelerated property abandonment. " ++
        "Violations → Crime direction was NOT significant."
      else
        "⚠️ No statistically significant Granger causality detected in either direction. " ++
        "The relationship may be contemporaneous rather than lagged, or driven by a " ++
        "shared third factor (poverty, disinvestment) rather than direct causation."
    (some results, some (sig1, sig2), ts, interpretation)

/-! ### Concrete demonstration inputs used by witnesses -/

/-- A 24-month crime series. -/
def demoA : List (Nat × ℚ) := (List.range 24).map fun i => (i, (i : ℚ))

/-- A 24-month violation series over the same periods. -/
def demoB : List (Nat × ℚ) := (List.range 24).map fun i => (i, (2 * i : ℚ))

/-- An ADF oracle reporting every series stationary (p-value 0). -/
def demoAdf : List ℚ → ℚ := fun _ => 0

/-- A Granger oracle that fails (as on a singular regression) on the
direction-1 data of `demoA`/`demoB` and succeeds on any other data with a
significant p-value at every lag. -/
def demoGranger : List (ℚ × ℚ) → Nat → Except String (Nat → ℚ) :=
  fun d _ =>
    if d = cvData1 demoAdf demoA demoB then .error "singular matrix"
    else .ok fun _ => 1 / 100

/-- Three raw violation rows: one Tier-2, one Tier-1 (value 3), one
administrative row that the loader drops as tier 0. -/
def demoRawRows : List RawViolation := [
  { complaint_type_name := "Fire Safety", violation := some "plumbing leak",
    latlon := some ⟨0, 0⟩, status_type_name := "Open" },
  { complaint_type_name := "Vacant House", violation := some "structural members damaged",
    latlon := some ⟨0, 0⟩, status_type_name := "Closed" },
  { complaint_type_name := "Fire Safety", violation := some "27-43 certification missing",
    latlon := some ⟨0, 0⟩, status_type_name := "Open" }
]

/-! ### Helper lemmas -/

theorem assign_tier_le_three (t : Option String) : assign_tier t ≤ 3 := by
  cases t with
  | none => simp [assign_tier]
  | some s =>
    simp only [assign_tier]
    split_ifs <;> omega

theorem decayZoneOf_spec (u v : Bool) :
    (decayZoneOf u v = .NearBoth ↔ u = true ∧ v = true)
    ∧ (decayZoneOf u v = .Neither ↔ u = false ∧ v = false)
    ∧ (decayZoneOf u v = .NearUnfitOnly ↔ u = true ∧ v = false)
    ∧ (decayZoneOf u v = .NearVacantOnly ↔ u = false ∧ v = true) := by
  cases u <;> cases v <;> decide

/-! ### C1 -/

/-- C1: `assign_tier` is total into the set of tiers 0-3 and evaluates its
rules in fixed priority order with first match winning (matching is
case-insensitive substring containment, embedded in the `...Hit`
predicates): missing text gives 1; an exclusion-keyword match gives 0
regardless of any tier keyword also matching; otherwise a Tier-1 keyword
gives 3 even when Tier-2/Tier-3 keywords also match; otherwise a Tier-2
keyword gives 2; otherwise a Tier-3 keyword gives 1; with no match the
default is 1. -/
theorem assign_tier_rule_order :
    (∀ t, assign_tier t = 0 ∨ assign_tier t = 1 ∨ assign_tier t = 2 ∨ assign_tier t = 3)
    ∧ assign_tier none = 1
    ∧ (∀ s, exclHit s = true → assign_tier (some s) = 0)
    ∧ (∀ s, exclHit s = false → tier1Hit s = true → assign_tier (some s) = 3)
    ∧ (∀ s, exclHit s = false → tier1Hit s = false → tier2Hit s = true →
        assign_tier (some s) = 2)
    ∧ (∀ s, exclHit s = false → tier1Hit s = false → tier2Hit s = false →
        tier3Hit s = true → assign_tier (some s) = 1)
    ∧ (∀ s, exclHit s = false → tier1Hit s = false → tier2Hit s = false →
        tier3Hit s = false → assign_tier (some s) = 1) := by
  refine ⟨?_, rfl, ?_, ?_, ?_, ?_, ?_⟩
  · intro t
    cases t with
    | none => simp [assign_tier]
    | some s =>
      simp only [assign_tier]
      split_ifs <;> omega
  all_goals intro s
  all_goals intros
  all_goals simp_all [assign_tier]

/-- Witness for C1 at concrete violation texts: an administrative text that
also holds a Tier-1 keyword is excluded; a structural text that also holds
Tier-2 and Tier-3 keywords gets 3; a systems text gets 2; an environmental
text gets 1; an unmatched text defaults to 1. -/
theorem assign_tier_rule_order_witness :
    assign_tier (some "27-43 unfit for human") = 0
    ∧ assign_tier (some "structural members trash") = 3
    ∧ assign_tier (some "plumbing leak") = 2
    ∧ assign_tier (some "overgrowth of weeds") = 1
    ∧ assign_tier (some "hello") = 1 :=
  ⟨assign_tier_rule_order.2.2.1 _ (by decide),
   assign_tier_rule_order.2.2.2.1 _ (by decide) (by decide),
   assign_tier_rule_order.2.2.2.2.1 _ (by decide) (by decide) (by decide),
   assign_tier_rule_order.2.2.2.2.2.1 _ (by decide) (by decide) (by decide) (by decide),
   assign_tier_rule_order.2.2.2.2.2.2 _ (by decide) (by decide) (by decide) (by decide)⟩

/-! ### C2 -/

/-- C2: for every crime record produced by `run_spatial_joins` (the same
flag derivation runs inline in `load_data`, src/crime_unfit_analysis.py
lines 62-67), `near_decay` equals `near_unfit OR near_vacant`, and
`decay_zone` is the pure 4-way function of the two flags: `Near Both` iff
both flags, `Neither` iff neither, `Near Unfit Only` iff unfit-only,
`Near Vacant Only` iff vacant-only. -/
theorem decay_zone_invariant (near : Point → Point → Bool)
    (crime unfit vacant : List Point) (out : List CrimeFlags)
    (hout : run_spatial_joins near crime unfit vacant = some out)
    (rec : CrimeFlags) (hrec : rec ∈ out) :
    rec.near_decay = (rec.near_unfit || rec.near_vacant)
    ∧ (rec.decay_zone = .NearBoth ↔ rec.near_unfit = true ∧ rec.near_vacant = true)
    ∧ (rec.decay_zone = .Neither ↔ rec.near_unfit = false ∧ rec.near_vacant = false)
    ∧ (rec.decay_zone = .NearUnfitOnly ↔ rec.near_unfit = true ∧ rec.near_vacant = false)
    ∧ (rec.decay_zone = .NearVacantOnly ↔ rec.near_unfit = false ∧ rec.near_vacant = true) := by
  unfold run_spatial_joins at hout
  rcases hu : buildBallTree unfit with _ | tu <;> rw [hu] at hout
  · exact absurd hout (by simp)
  rcases hv : buildBallTree vacant with _ | tv <;> rw [hv] at hout
  · exact absurd hout (by simp)
  simp only [Option.some.injEq] at hout
  subst hout
  rcases List.mem_map.mp hrec with ⟨c, _, rfl⟩
  exact ⟨rfl, (decayZoneOf_spec _ _).1, (decayZoneOf_spec _ _).2.1,
    (decayZoneOf_spec _ _).2.2.1, (decayZoneOf_spec _ _).2.2.2⟩

/-- Witness for C2: one crime near the single unfit point and far from the
single vacant point gets `near_decay = true` and zone `Near Unfit Only`. -/
theorem decay_zone_invariant_witness :
    run_spatial_joins (fun a b => decide (a = b)) [Point.mk 0 0] [Point.mk 0 0] [Point.mk 1 1]
      = some [⟨⟨0, 0⟩, true, false, true, .NearUnfitOnly⟩]
    ∧ (⟨⟨0, 0⟩, true, false, true, .NearUnfitOnly⟩ : CrimeFlags)
        ∈ [(⟨⟨0, 0⟩, true, false, true, .NearUnfitOnly⟩ : CrimeFlags)]
    ∧ ((⟨⟨0, 0⟩, true, false, true, .NearUnfitOnly⟩ : CrimeFlags).near_decay
        = ((⟨⟨0, 0⟩, true, false, true, .NearUnfitOnly⟩ : CrimeFlags).near_unfit
           || (⟨⟨0, 0⟩, true, false, true, .NearUnfitOnly⟩ : CrimeFlags).near_vacant))
    ∧ ((⟨⟨0, 0⟩, true, false, true, .NearUnfitOnly⟩ : CrimeFlags).decay_zone = .NearUnfitOnly
        ↔ (⟨⟨0, 0⟩, true, false, true, .NearUnfitOnly⟩ : CrimeFlags).near_unfit = true
          ∧ (⟨⟨0, 0⟩, true, false, true, .NearUnfitOnly⟩ : CrimeFlags).near_vacant = false) :=
  ⟨by decide, by decide,
   (decay_zone_invariant (fun a b => decide (a = b)) [Point.mk 0 0] [Point.mk 0 0]
     [Point.mk 1 1] [⟨⟨0, 0⟩, true, false, true, .NearUnfitOnly⟩] (by decide)
     ⟨⟨0, 0⟩, true, false, true, .NearUnfitOnly⟩ (by decide)).1,
   (decay_zone_invariant (fun a b => decide (a = b)) [Point.mk 0 0] [Point.mk 0 0]
     [Point.mk 1 1] [⟨⟨0, 0⟩, true, false, true, .NearUnfitOnly⟩] (by decide)
     ⟨⟨0, 0⟩, true, false, true, .NearUnfitOnly⟩ (by decide)).2.2.2.1⟩

/-! ### C3 -/

/-- C3 counterexample: the spatial-join flags do NOT default to false on an
empty reference set. `run_spatial_joins` builds its BallTrees
unconditionally, and the sklearn BallTree constructor raises on zero
samples (modelled as `none`), for an empty unfit set as well as for an
empty vacant set — instead of the all-false flags the claim requires. -/
theorem run_spatial_joins_empty_reference_counterexample :
    run_spatial_joins (fun a b => decide (a = b)) [Point.mk 0 0] [] [Point.mk 1 1] = none
    ∧ run_spatial_joins (fun a b => decide (a = b)) [Point.mk 0 0] [Point.mk 1 1] [] = none := by
  decide

/-- C3 amended: with an empty violation reference set,
`add_violation_features` returns zero counts, zero severity scores and
false flags for every crime without constructing the index (the result does
not depend on the proximity predicate, and the guard branch never reaches
`buildBallTree`); but `run_spatial_joins` has no such guard and fails
(sklearn raises on index construction) whenever its unfit or its vacant
reference set is empty, for every query set. -/
theorem empty_reference_defaults_amended :
    (∀ (near : Point → Point → Bool) (crimes : List Point),
      add_violation_features near crimes []
        = some (crimes.map fun c => ⟨c, 0, 0, false⟩))
    ∧ (∀ (near : Point → Point → Bool) (crimes vacant : List Point),
      run_spatial_joins near crimes [] vacant = none)
    ∧ (∀ (near : Point → Point → Bool) (crimes unfit : List Point),
      run_spatial_joins near crimes unfit [] = none) := by
  refine ⟨fun near crimes => rfl, fun near crimes vacant => rfl,
    fun near crimes unfit => ?_⟩
  unfold run_spatial_joins
  rcases hu : buildBallTree unfit with _ | tu <;> rfl

/-! ### C4 -/

/-- C4: in both variants of the classifier, a ZIP row with `crime_count`
strictly above the crime median and `decay_score` strictly above the decay
median is always Type A, whatever its `unfit_ratio`; and because the
comparisons are strict, a row exactly at the crime median (or at the decay
median) is never Type A. -/
theorem typeA_priority (cm dm : ℚ) (row : ZipRow) :
    (cm < row.crime_count → dm < row.decay_score →
      classify cm dm row = .TypeA ∧ classify_cu cm dm row = .TypeA)
    ∧ (row.crime_count = cm →
      classify cm dm row ≠ .TypeA ∧ classify_cu cm dm row ≠ .TypeA)
    ∧ (row.decay_score = dm →
      classify cm dm row ≠ .TypeA ∧ classify_cu cm dm row ≠ .TypeA) := by
  unfold classify classify_cu
  refine ⟨fun h1 h2 => ?_, fun h => ?_, fun h => ?_⟩ <;>
    split_ifs with h' <;> simp_all

/-- Witness for C4 at concrete rows: above both medians gives Type A in
both variants; exactly at the crime median (or the decay median) never
does. -/
theorem typeA_priority_witness :
    ((1 : ℚ) < 2)
    ∧ (classify 1 1 ⟨2, 2, 1, 0⟩ = .TypeA ∧ classify_cu 1 1 ⟨2, 2, 1, 0⟩ = .TypeA)
    ∧ (classify 1 1 ⟨1, 5, 1, 0⟩ ≠ .TypeA ∧ classify_cu 1 1 ⟨1, 5, 1, 0⟩ ≠ .TypeA)
    ∧ (classify 1 1 ⟨5, 1, 1, 0⟩ ≠ .TypeA ∧ classify_cu 1 1 ⟨5, 1, 1, 0⟩ ≠ .TypeA) :=
  ⟨by norm_num,
   (typeA_priority 1 1 ⟨2, 2, 1, 0⟩).1 (by norm_num) (by norm_num),
   (typeA_priority 1 1 ⟨1, 5, 1, 0⟩).2.1 rfl,
   (typeA_priority 1 1 ⟨5, 1, 1, 0⟩).2.2 rfl⟩

/-! ### C5 -/

/-- C5 counterexample: in the src/crime_unfit_analysis.py variant a row
with `decay_score` not above the decay median (5 against median 10) and
`unfit_ratio = 1/2 > 0.4` is classified Low Risk, not Type C, because its
`crime_count` (20 against median 10) is high: the Type C branch there also
requires `not high_crime`. This refutes the claim for "every variant". -/
theorem typeC_fallthrough_counterexample :
    classify_cu 10 10 ⟨20, 5, 1/2, 0⟩ = .LowRisk
    ∧ classify_cu 10 10 ⟨20, 5, 1/2, 0⟩ ≠ .TypeC
    ∧ ¬ (10 : ℚ) < 5 ∧ (0.4 : ℚ) < 1/2 := by
  with_unfolding_all decide

/-- C5 amended: for a row with `decay_score` not above the decay median and
`unfit_ratio > 0.4`, the decay_index.py variant classifies Type C
regardless of `crime_count`; the crime_unfit_analysis.py variant classifies
Type C only when `crime_count` is not above the crime median, and Low Risk
when it is. -/
theorem typeC_fallthrough_amended (cm dm : ℚ) (row : ZipRow)
    (hd : ¬ dm < row.decay_score) (hu : (0.4 : ℚ) < row.unfit_ratio) :
    classify cm dm row = .TypeC
    ∧ (¬ cm < row.crime_count → classify_cu cm dm row = .TypeC)
    ∧ (cm < row.crime_count → classify_cu cm dm row = .LowRisk) := by
  unfold classify classify_cu
  refine ⟨?_, fun hc => ?_, fun hc => ?_⟩ <;> split_ifs <;> simp_all

/-- Witness for C5 (amended) at concrete rows: with medians 10/10, a
low-crime unfit-heavy row is Type C in both variants, while a high-crime
unfit-heavy row is Type C only in the decay_index.py variant and Low Risk
in the crime_unfit_analysis.py variant. -/
theorem typeC_fallthrough_amended_witness :
    (¬ (10 : ℚ) < 5) ∧ ((0.4 : ℚ) < 1/2)
    ∧ classify 10 10 ⟨5, 5, 1/2, 0⟩ = .TypeC
    ∧ classify_cu 10 10 ⟨5, 5, 1/2, 0⟩ = .TypeC
    ∧ classify 10 10 ⟨20, 5, 1/2, 0⟩ = .TypeC
    ∧ classify_cu 10 10 ⟨20, 5, 1/2, 0⟩ = .LowRisk :=
  ⟨by norm_num, by norm_num,
   (typeC_fallthrough_amended 10 10 ⟨5, 5, 1/2, 0⟩ (by norm_num) (by norm_num)).1,
   (typeC_fallthrough_amended 10 10 ⟨5, 5, 1/2, 0⟩ (by norm_num) (by norm_num)).2.1
     (by norm_num),
   (typeC_fallthrough_amended 10 10 ⟨20, 5, 1/2, 0⟩ (by norm_num) (by norm_num)).1,
   (typeC_fallthrough_amended 10 10 ⟨20, 5, 1/2, 0⟩ (by norm_num) (by norm_num)).2.2
     (by norm_num)⟩

/-! ### C6 -/

/-- C6: whenever the inner-joined series has strictly fewer overlapping
months than the minimum (10 for the unfit variant, 24 for the
code-violations variant), the causality driver returns its structured
insufficient-data tuple — the same fixed value for every ADF and Granger
oracle, so no stationarity check and no Granger test is performed, and no
exception escapes. -/
theorem insufficient_overlap_no_test :
    (∀ (adf : List ℚ → ℚ) (granger : List (ℚ × ℚ) → Nat → Except String (Nat → ℚ × ℚ))
       (a b : List (Nat × ℚ)), (innerJoin a b).length < 10 →
       run_granger_causality adf granger a b
         = (none, innerJoin a b, "Insufficient overlapping time periods for Granger test."))
    ∧ (∀ (adf : List ℚ → ℚ) (granger : List (ℚ × ℚ) → Nat → Except String (Nat → ℚ))
       (a b : List (Nat × ℚ)), (innerJoin a b).length < 24 →
       run_granger_causality_cv adf granger a b
         = (none, none, innerJoin a b, "Insufficient overlapping time periods.")) := by
  constructor
  · intro adf granger a b h
    simp [run_granger_causality, h]
  · intro adf granger a b h
    simp [run_granger_causality_cv, h]

/-- Witness for C6: one-month overlaps (1 < 10 and 1 < 24) give the two
insufficient-data tuples for arbitrary concrete oracles. -/
theorem insufficient_overlap_no_test_witness :
    (innerJoin [((0 : Nat), (5 : ℚ))] [((0 : Nat), (7 : ℚ))]).length < 10
    ∧ run_granger_causality (fun _ => 0) (fun _ _ => .error "x") [(0, 5)] [(0, 7)]
        = (none, innerJoin [(0, 5)] [(0, 7)],
           "Insufficient overlapping time periods for Granger test.")
    ∧ (innerJoin [((0 : Nat), (5 : ℚ))] [((0 : Nat), (7 : ℚ))]).length < 24
    ∧ run_granger_causality_cv (fun _ => 0) (fun _ _ => .error "x") [(0, 5)] [(0, 7)]
        = (none, none, innerJoin [(0, 5)] [(0, 7)], "Insufficient overlapping time periods.") :=
  ⟨by with_unfolding_all decide,
   insufficient_overlap_no_test.1 (fun _ => 0) (fun _ _ => .error "x") [(0, 5)] [(0, 7)]
     (by with_unfolding_all decide),
   by with_unfolding_all decide,
   insufficient_overlap_no_test.2 (fun _ => 0) (fun _ _ => .error "x") [(0, 5)] [(0, 7)]
     (by with_unfolding_all decide)⟩

/-! ### C7 -/

/-- C7 counterexample: a numerical failure is NOT confined to a single lag.
In `run_granger_causality` the try/except wraps the whole
`grangercausalitytests` call (which computes all lags 1..max_lag in one
call and raises if any lag fails), so on a 24-month joined series with
max_lag = 4 a singular-regression failure yields a result tuple whose
results member is None — no lag is reported at all, where the claim
requires the other lags to survive. -/
theorem granger_whole_call_failure_counterexample :
    (run_granger_causality demoAdf (fun _ _ => .error "singular matrix") demoA demoB).1 = none
    ∧ (run_granger_causality demoAdf (fun _ _ => .error "singular matrix") demoA demoB).2.2
        = "Granger test error: singular matrix"
    ∧ min 4 ((innerJoin demoA demoB).length / 4) = 4 := by
  with_unfolding_all decide

/-- C7 amended: a numerical failure inside `grangercausalitytests` is
caught at whole-call granularity, not per lag: in `run_granger_causality`
a failing call produces the structured error tuple (results `None`, error
message) with every lag omitted, and in `run_granger_causality_cv` a
failure in direction 1 omits all of that direction's lags while direction
2 is still computed and reported in full; in both variants the exception
is caught and does not propagate. -/
theorem granger_failure_locality_amended :
    (∀ (adf : List ℚ → ℚ) (e : String) (a b : List (Nat × ℚ)),
      10 ≤ (innerJoin a b).length →
      (run_granger_causality adf (fun _ _ => Except.error e) a b).1 = none
      ∧ (run_granger_causality adf (fun _ _ => Except.error e) a b).2.2
          = "Granger test error: " ++ e)
    ∧ (∀ (adf : List ℚ → ℚ) (granger : List (ℚ × ℚ) → Nat → Except String (Nat → ℚ))
        (a b : List (Nat × ℚ)) (e : String) (pv : Nat → ℚ),
      24 ≤ (innerJoin a b).length →
      granger (cvData1 adf a b) (cvMaxLag adf a b) = .error e →
      granger (cvData2 adf a b) (cvMaxLag adf a b) = .ok pv →
      (run_granger_causality_cv adf granger a b).1
        = some (mkCvLagRows "Crime → Violations" (cvMaxLag adf a b) pv)
      ∧ (run_granger_causality_cv adf granger a b).2.1
        = some ([], ((mkCvLagRows "Crime → Violations" (cvMaxLag adf a b) pv).filter
            (·.significant)).map (·.lag_months))) := by
  constructor
  · intro adf e a b h
    have hn : ¬ (innerJoin a b).length < 10 := not_lt.mpr h
    constructor <;> simp [run_granger_causality, hn]
  · intro adf granger a b e pv h h1 h2
    have hn : ¬ (innerJoin a b).length < 24 := not_lt.mpr h
    constructor <;> simp [run_granger_causality_cv, hn, h1, h2]

/-- Witness for C7 (amended) on the 24-month demonstration series: the
whole-call failure empties the unfit-variant results, and with the
direction-1-failing oracle the bidirectional variant reports exactly the
direction-2 rows. -/
theorem granger_failure_locality_amended_witness :
    10 ≤ (innerJoin demoA demoB).length
    ∧ (run_granger_causality demoAdf (fun _ _ => Except.error "singular matrix") demoA demoB).1
        = none
    ∧ (run_granger_causality demoAdf (fun _ _ => Except.error "singular matrix") demoA demoB).2.2
        = "Granger test error: " ++ "singular matrix"
    ∧ 24 ≤ (innerJoin demoA demoB).length
    ∧ demoGranger (cvData1 demoAdf demoA demoB) (cvMaxLag demoAdf demoA demoB)
        = .error "singular matrix"
    ∧ demoGranger (cvData2 demoAdf demoA demoB) (cvMaxLag demoAdf demoA demoB)
        = .ok (fun _ => 1 / 100)
    ∧ (run_granger_causality_cv demoAdf demoGranger demoA demoB).1
        = some (mkCvLagRows "Crime → Violations" (cvMaxLag demoAdf demoA demoB) (fun _ => 1 / 100))
    ∧ (run_granger_causality_cv demoAdf demoGranger demoA demoB).2.1
        = some ([], ((mkCvLagRows "Crime → Violations" (cvMaxLag demoAdf demoA demoB)
            (fun _ => 1 / 100)).filter (·.significant)).map (·.lag_months)) :=
  ⟨by with_unfolding_all decide,
   (granger_failure_locality_amended.1 demoAdf "singular matrix" demoA demoB
     (by with_unfolding_all decide)).1,
   (granger_failure_locality_amended.1 demoAdf "singular matrix" demoA demoB
     (by with_unfolding_all decide)).2,
   by with_unfolding_all decide,
   by with_unfolding_all rfl,
   by with_unfolding_all rfl,
   (granger_failure_locality_amended.2 demoAdf demoGranger demoA demoB "singular matrix"
     (fun _ => 1 / 100) (by with_unfolding_all decide)
     (by with_unfolding_all rfl) (by with_unfolding_all rfl)).1,
   (granger_failure_locality_amended.2 demoAdf demoGranger demoA demoB "singular matrix"
     (fun _ => 1 / 100) (by with_unfolding_all decide)
     (by with_unfolding_all rfl) (by with_unfolding_all rfl)).2⟩

/-! ### Helper lemmas for the normalization and violation-feature claims -/

theorem listMin_le : ∀ {s : List ℚ} {x : ℚ}, x ∈ s → listMin s ≤ x := by
  intro s
  induction s with
  | nil => intro x hx; cases hx
  | cons a t ih =>
    intro x hx
    cases t with
    | nil =>
      rcases List.mem_cons.mp hx with rfl | h'
      · simp [listMin]
      · cases h'
    | cons b u =>
      rcases List.mem_cons.mp hx with rfl | h'
      · simp only [listMin]
        exact min_le_left _ _
      · exact le_trans (min_le_right _ _) (ih h')

theorem le_listMax : ∀ {s : List ℚ} {x : ℚ}, x ∈ s → x ≤ listMax s := by
  intro s
  induction s with
  | nil => intro x hx; cases hx
  | cons a t ih =>
    intro x hx
    cases t with
    | nil =>
      rcases List.mem_cons.mp hx with rfl | h'
      · simp [listMax]
      · cases h'
    | cons b u =>
      rcases List.mem_cons.mp hx with rfl | h'
      · simp only [listMax]
        exact le_max_left _ _
      · exact le_trans (ih h') (le_max_right _ _)

theorem listMin_mem : ∀ {s : List ℚ}, s ≠ [] → listMin s ∈ s := by
  intro s
  induction s with
  | nil => intro h; exact absurd rfl h
  | cons a t ih =>
    intro _
    cases t with
    | nil => simp [listMin]
    | cons b u =>
      simp only [listMin]
      rcases min_choice a (listMin (b :: u)) with h | h <;> rw [h]
      · exact List.mem_cons_self _ _
      · exact List.mem_cons_of_mem _ (ih (by simp))

theorem listMax_mem : ∀ {s : List ℚ}, s ≠ [] → listMax s ∈ s := by
  intro s
  induction s with
  | nil => intro h; exact absurd rfl h
  | cons a t ih =>
    intro _
    cases t with
    | nil => simp [listMax]
    | cons b u =>
      simp only [listMax]
      rcases max_choice a (listMax (b :: u)) with h | h <;> rw [h]
      · exact List.mem_cons_self _ _
      · exact List.mem_cons_of_mem _ (ih (by simp))

theorem range_zero_of_const {s : List ℚ} (h : ∀ x ∈ s, ∀ y ∈ s, x = y) :
    listMax s - listMin s = 0 := by
  cases s with
  | nil => simp [listMin, listMax]
  | cons a t =>
    have h1 : listMin (a :: t) ∈ a :: t := listMin_mem (by simp)
    have h2 : listMax (a :: t) ∈ a :: t := listMax_mem (by simp)
    rw [h _ h2 _ h1, sub_self]

theorem norm_mem_bounds {s : List ℚ} {y : ℚ} (hy : y ∈ norm s) : 0 ≤ y ∧ y ≤ 1 := by
  unfold norm at hy
  by_cases h : 0 < listMax s - listMin s
  · rw [if_pos h] at hy
    rcases List.mem_map.mp hy with ⟨x, hx, rfl⟩
    refine ⟨div_nonneg (sub_nonneg.mpr (listMin_le hx)) h.le, ?_⟩
    rw [div_le_one h]
    have := le_listMax hx
    linarith
  · rw [if_neg h] at hy
    rcases List.mem_map.mp hy with ⟨x, hx, rfl⟩
    simp

theorem norm_get_pos {s : List ℚ} (hrng : 0 < listMax s - listMin s)
    (i : Nat) (h : i < s.length) (h2 : i < (norm s).length) :
    (norm s).get ⟨i, h2⟩
      = (s.get ⟨i, h⟩ - listMin s) / (listMax s - listMin s) := by
  have hnorm : norm s = s.map fun x => (x - listMin s) / (listMax s - listMin s) := by
    unfold norm
    rw [if_pos hrng]
  rw [List.get_of_eq hnorm]
  simp [List.get_eq_getElem, List.getElem_map]

theorem zipWith3_mem {f : ℚ → ℚ → ℚ → ℚ} :
    ∀ {as bs cs : List ℚ} {y}, y ∈ zipWith3 f as bs cs →
      ∃ a, a ∈ as ∧ ∃ b, b ∈ bs ∧ ∃ c, c ∈ cs ∧ y = f a b c := by
  intro as
  induction as with
  | nil => intro bs cs y hy; simp [zipWith3] at hy
  | cons a at' ih =>
    intro bs cs y hy
    cases bs with
    | nil => simp [zipWith3] at hy
    | cons b bt =>
      cases cs with
      | nil => simp [zipWith3] at hy
      | cons c ct =>
        simp only [zipWith3, List.mem_cons] at hy
        rcases hy with rfl | hy
        · exact ⟨a, by simp, b, by simp, c, by simp, rfl⟩
        · rcases ih hy with ⟨a', ha, b', hb, c', hc, rfl⟩
          exact ⟨a', List.mem_cons_of_mem _ ha, b', List.mem_cons_of_mem _ hb,
            c', List.mem_cons_of_mem _ hc, rfl⟩

theorem load_code_violations_tier_bounds {rows : List RawViolation} {v : Violation}
    (hv : v ∈ load_code_violations rows) : 1 ≤ v.tier ∧ v.tier ≤ 3 := by
  unfold load_code_violations at hv
  simp only [List.mem_filterMap] at hv
  obtain ⟨rt, hrt, hmap⟩ := hv
  have h0 : decide (0 < rt.2) = true := (List.mem_filter.mp hrt).2
  have hmem := (List.mem_filter.mp hrt).1
  rcases List.mem_map.mp hmem with ⟨r, _, rfl⟩
  have h3 := assign_tier_le_three r.violation
  have h1 : 0 < assign_tier r.violation := of_decide_eq_true h0
  rcases ho : r.latlon with _ | p <;> rw [ho] at hmap
  · cases hmap
  · simp only [Option.map_some', Option.some.injEq] at hmap
    subst hmap
    exact ⟨h1, h3⟩

theorem tier_sum_bounds {l : List Violation} (h : ∀ v ∈ l, 1 ≤ v.tier ∧ v.tier ≤ 3) :
    l.length ≤ (l.map (·.tier)).sum ∧ (l.map (·.tier)).sum ≤ 3 * l.length := by
  induction l with
  | nil => simp
  | cons v t ih =>
    have hv := h v (by simp)
    have ht := ih fun w hw => h w (List.mem_cons_of_mem _ hw)
    simp only [List.map_cons, List.sum_cons, List.length_cons]
    omega

/-! ### C8 -/

/-- C8: `norm` maps an all-equal series to the zero vector (the zero-range
branch), every `norm` output value lies in [0, 1] (with the output the same
length as the input), in the positive-range branch the positions of the
minimum and the maximum map to 0 and 1, and consequently every
`risk_score` computed by `classify_neighborhoods` lies in [0, 100]. -/
theorem norm_risk_spec :
    (∀ s : List ℚ, (∀ x ∈ s, ∀ y ∈ s, x = y) → norm s = s.map fun _ => 0)
    ∧ (∀ s : List ℚ, (norm s).length = s.length)
    ∧ (∀ s : List ℚ, ∀ y ∈ norm s, 0 ≤ y ∧ y ≤ 1)
    ∧ (∀ s : List ℚ, 0 < listMax s - listMin s →
        ∀ i (h : i < s.length) (h2 : i < (norm s).length),
          (s.get ⟨i, h⟩ = listMin s → (norm s).get ⟨i, h2⟩ = 0)
          ∧ (s.get ⟨i, h⟩ = listMax s → (norm s).get ⟨i, h2⟩ = 1))
    ∧ (∀ rows : List ZipRow, ∀ o ∈ classify_rows rows,
        0 ≤ o.risk_score ∧ o.risk_score ≤ 100) := by
  refine ⟨?_, ?_, ?_, ?_, ?_⟩
  · intro s h
    unfold norm
    rw [if_neg (by rw [range_zero_of_const h]; exact lt_irrefl 0)]
    exact List.map_congr_left fun x _ => mul_zero x
  · intro s
    simp only [norm]
    split <;> simp
  · intro s y hy
    exact norm_mem_bounds hy
  · intro s hrng i h h2
    rw [norm_get_pos hrng i h h2]
    constructor <;> intro hx <;> rw [hx]
    · rw [sub_self, zero_div]
    · exact div_self (ne_of_gt hrng)
  · intro rows o ho
    simp only [classify_rows, List.mem_map] at ho
    obtain ⟨⟨r, k⟩, hrk, rfl⟩ := ho
    have hk := (List.of_mem_zip hrk).2
    rcases zipWith3_mem hk with ⟨a, ha, b, hb, c, hc, heq⟩
    have hba := norm_mem_bounds ha
    have hbb := norm_mem_bounds hb
    have hbc := norm_mem_bounds hc
    show 0 ≤ k ∧ k ≤ 100
    rw [heq]
    obtain ⟨ha0, ha1⟩ := hba
    obtain ⟨hb0, hb1⟩ := hbb
    obtain ⟨hc0, hc1⟩ := hbc
    constructor <;> nlinarith

set_option maxRecDepth 100000 in
/-- Witness for C8 at concrete series: the constant series [5, 5] maps to
the zero vector; `norm [0, 2, 1]` has length 3, its value 1/2 lies in
[0, 1], its first position (the minimum 0) maps to 0 and its second
position (the maximum 2) maps to 1; and the Type-B row of a concrete
two-ZIP table has risk score 35 inside [0, 100]. -/
theorem norm_risk_spec_witness :
    norm [5, 5] = List.map (fun _ => (0 : ℚ)) [5, 5]
    ∧ (norm [0, 2, 1]).length = ([(0 : ℚ), 2, 1]).length
    ∧ ((1/2 : ℚ) ∈ norm [0, 2, 1] ∧ (0 ≤ (1/2 : ℚ) ∧ (1/2 : ℚ) ≤ 1))
    ∧ (0 < listMax [0, 2, 1] - listMin [0, 2, 1])
    ∧ ((norm [0, 2, 1]).get ⟨0, by with_unfolding_all decide⟩ = 0)
    ∧ ((norm [0, 2, 1]).get ⟨1, by with_unfolding_all decide⟩ = 1)
    ∧ ((⟨⟨1, 2, 0, 0⟩, .TypeB, 35⟩ : ZipOut) ∈ classify_rows [⟨1, 2, 0, 0⟩, ⟨3, 1, 0, 1⟩]
        ∧ (0 ≤ (⟨⟨1, 2, 0, 0⟩, .TypeB, 35⟩ : ZipOut).risk_score
           ∧ (⟨⟨1, 2, 0, 0⟩, .TypeB, 35⟩ : ZipOut).risk_score ≤ 100)) :=
  ⟨norm_risk_spec.1 [5, 5] (by with_unfolding_all decide),
   norm_risk_spec.2.1 [0, 2, 1],
   ⟨by with_unfolding_all decide,
    norm_risk_spec.2.2.1 [0, 2, 1] (1/2) (by with_unfolding_all decide)⟩,
   by with_unfolding_all decide,
   (norm_risk_spec.2.2.2.1 [0, 2, 1] (by with_unfolding_all decide) 0
     (by with_unfolding_all decide) (by with_unfolding_all decide)).1
     (by with_unfolding_all decide),
   (norm_risk_spec.2.2.2.1 [0, 2, 1] (by with_unfolding_all decide) 1
     (by with_unfolding_all decide) (by with_unfolding_all decide)).2
     (by with_unfolding_all decide),
   ⟨by with_unfolding_all decide,
    norm_risk_spec.2.2.2.2 [⟨1, 2, 0, 0⟩, ⟨3, 1, 0, 1⟩] ⟨⟨1, 2, 0, 0⟩, .TypeB, 35⟩
      (by with_unfolding_all decide)⟩⟩

/-! ### C9 -/

set_option maxRecDepth 400000 in
/-- C9 support: at the failing input — twenty ZIP rows with identical
crime_count, decay_score, unfit_ratio and pct_unresolved — every risk
score computed by `classify_neighborhoods` is 0: the final
`sort_values('risk_score', ascending=False)` therefore sorts a fully tied
key column, where the pandas default `kind='quicksort'` (numpy introsort,
which partition-swaps equal keys on arrays longer than its 16-element
insertion-sort cutoff) gives no stability guarantee, contrary to the
stable-sort part of the claim. -/
theorem tied_risk_scores_all_zero :
    ((classify_rows (List.replicate 20 ⟨5, 5, 1/2, 1/4⟩)).map (·.risk_score))
      = List.replicate 20 0 := by
  with_unfolding_all decide

/-! ### C10 -/

/-- C10: for every crime record produced by `add_violation_features` on
the output of `load_code_violations`, the severity score is bounded by the
count from below and three times the count from above (every retained
violation has tier between 1 and 3, tier-0 rows having been filtered out
by the loader), and a critical flag implies at least one nearby violation. -/
theorem violation_feature_bounds (near : Point → Point → Bool)
    (rows : List RawViolation) (crimes : List Point) (out : List CrimeViol)
    (hout : add_violation_features near crimes (load_code_violations rows) = some out)
    (rec : CrimeViol) (hrec : rec ∈ out) :
    rec.violation_count ≤ rec.violation_severity_score
    ∧ rec.violation_severity_score ≤ 3 * rec.violation_count
    ∧ (rec.has_critical_violation = true → 1 ≤ rec.violation_count) := by
  unfold add_violation_features at hout
  by_cases hemp : (load_code_violations rows).isEmpty
  · rw [if_pos hemp] at hout
    simp only [Option.some.injEq] at hout
    subst hout
    rcases List.mem_map.mp hrec with ⟨c, _, rfl⟩
    exact ⟨le_refl 0, le_refl 0, by simp⟩
  · rw [if_neg hemp] at hout
    have hbt : buildBallTree (load_code_violations rows) = some (load_code_violations rows) := by
      unfold buildBallTree
      rw [if_neg hemp]
    rw [hbt] at hout
    simp only [Option.map_some', Option.some.injEq] at hout
    subst hout
    rcases List.mem_map.mp hrec with ⟨c, _, rfl⟩
    have hall : ∀ v ∈ (load_code_violations rows).filter (fun v => near c v.pt),
        1 ≤ v.tier ∧ v.tier ≤ 3 :=
      fun v hv => load_code_violations_tier_bounds (List.mem_filter.mp hv).1
    have hb := tier_sum_bounds hall
    refine ⟨hb.1, hb.2, fun hc => ?_⟩
    rcases List.any_eq_true.mp hc with ⟨v, hv, _⟩
    have hpos := List.length_pos.mpr (List.ne_nil_of_mem hv)
    exact hpos

/-- Witness for C10: three raw rows (Tier 2, Tier 1, administrative) load
into two retained violations; a crime matching both gets count 2, severity
5 and the critical flag, which satisfies 2 ≤ 5 ≤ 6 and the count-positivity
implication. -/
theorem violation_feature_bounds_witness :
    add_violation_features (fun _ _ => true) [Point.mk 0 0] (load_code_violations demoRawRows)
      = some [⟨⟨0, 0⟩, 2, 5, true⟩]
    ∧ (⟨⟨0, 0⟩, 2, 5, true⟩ : CrimeViol) ∈ [(⟨⟨0, 0⟩, 2, 5, true⟩ : CrimeViol)]
    ∧ ((⟨⟨0, 0⟩, 2, 5, true⟩ : CrimeViol).violation_count
        ≤ (⟨⟨0, 0⟩, 2, 5, true⟩ : CrimeViol).violation_severity_score)
    ∧ ((⟨⟨0, 0⟩, 2, 5, true⟩ : CrimeViol).violation_severity_score
        ≤ 3 * (⟨⟨0, 0⟩, 2, 5, true⟩ : CrimeViol).violation_count)
    ∧ ((⟨⟨0, 0⟩, 2, 5, true⟩ : CrimeViol).has_critical_violation = true
        → 1 ≤ (⟨⟨0, 0⟩, 2, 5, true⟩ : CrimeViol).violation_count) :=
  ⟨by with_unfolding_all decide, by decide,
   (violation_feature_bounds (fun _ _ => true) demoRawRows [Point.mk 0 0]
     [⟨⟨0, 0⟩, 2, 5, true⟩] (by with_unfolding_all decide)
     ⟨⟨0, 0⟩, 2, 5, true⟩ (by decide)).1,
   (violation_feature_bounds (fun _ _ => true) demoRawRows [Point.mk 0 0]
     [⟨⟨0, 0⟩, 2, 5, true⟩] (by with_unfolding_all decide)
     ⟨⟨0, 0⟩, 2, 5, true⟩ (by decide)).2.1,
   (violation_feature_bounds (fun _ _ => true) demoRawRows [Point.mk 0 0]
     [⟨⟨0, 0⟩, 2, 5, true⟩] (by with_unfolding_all decide)
     ⟨⟨0, 0⟩, 2, 5, true⟩ (by decide)).2.2⟩

end CityUnmasked
